import Mathlib

/-!
Verification development for the Financial-Insight-Engine repository.

The repository contains two parallel implementations of the per-turn RAG
pipeline:

* the standalone pipeline in `nodes.py` / `graph.py` (module-level langgraph
  nodes wired by `create_graph`), and
* the service-layer pipeline in `app/assistant/controller/`
  (`AgentService`, `ModelService`, `CacheService`, `RetrievalService`).

Both are embedded below.  External effects (LLM calls, vector-store
searches, cache reads and writes) are modelled as oracles: functions that
return `Except Unit α`, where `Except.error ()` stands for a raised Python
exception.  Each node of the state machine is a function from the pipeline
state to `Except Unit` of the new state; an `Except.error` result models an
uncaught exception propagating out of the node and aborting the graph run.
A ghost field `cacheWrites` records every successful
`cache_store.add_documents` / `add_to_cache_sync` call so that caching
side effects can be stated.
-/

namespace FIE

/-- Decidable equality of `Except` values, used to evaluate concrete runs
of the pipelines. -/
instance {ε α : Type} [DecidableEq ε] [DecidableEq α] :
    DecidableEq (Except ε α) := fun x y =>
  match x, y with
  | Except.error e, Except.error f =>
    if h : e = f then isTrue (congrArg Except.error h)
    else isFalse fun c => h (Except.error.inj c)
  | Except.error _, Except.ok _ => isFalse fun c => Except.noConfusion c
  | Except.ok _, Except.error _ => isFalse fun c => Except.noConfusion c
  | Except.ok a, Except.ok b =>
    if h : a = b then isTrue (congrArg Except.ok h)
    else isFalse fun c => h (Except.ok.inj c)

/-- Model of `state_service.Metadata` / `state.Metadata`: the optional
company ticker and document category extracted by the query refiner.  The
enumerations are represented as strings; only presence or absence matters
for the claims below. -/
structure Metadata where
  company : Option String
  category : Option String
deriving Repr, DecidableEq

/-- The fully unset filter, `Metadata()` in Python (both fields default to
`None`). -/
def Metadata.unset : Metadata := ⟨none, none⟩

/-- Model of `QueryConstruct`: the structured query produced by the
refiner. -/
structure QueryConstruct where
  filter : Metadata
  refined_query : String
deriving Repr, DecidableEq

/-- Message roles: `HumanMessage` or `AIMessage`. -/
inductive Role where
  | user
  | assistant
deriving Repr, DecidableEq

/-- One turn of the conversation (a langchain message). -/
structure Message where
  role : Role
  content : String
deriving Repr, DecidableEq

/-- `HumanMessage(content=s)`. -/
def humanMessage (s : String) : Message := ⟨Role.user, s⟩

/-- `AIMessage(content=s)`. -/
def aiMessage (s : String) : Message := ⟨Role.assistant, s⟩

/-- A retrieved candidate document (`langchain_core.documents.Document`):
text content plus metadata (modelled as an association list).  Equality is
structural, matching pydantic equality on Document. -/
structure Doc where
  content : String
  meta : List (String × String)
deriving Repr, DecidableEq

/-- A semantic-cache entry as seen through the vector store: the key text
(a previously refined query) and `metadata.get("response")`, which is
`none` when the stored metadata has no `response` field. -/
structure CacheEntry where
  key : String
  response : Option String
deriving Repr, DecidableEq

/-- Model of `FinancialAnalysisState`.  `structured_query` is `none`
before `query_construct` has run (the TypedDict key is absent), and can
also be set to `none` by the service-layer refiner when the structured LLM
returns `None`.  `cacheWrites` is a ghost field recording the successful
cache writes performed during the turn. -/
structure AgentState where
  messages : List Message
  structured_query : Option QueryConstruct
  source_documents : List String
  cache_hit : Bool
  cacheWrites : List (String × String)
deriving Repr, DecidableEq

/-! ### Retrieval service helpers -/

/-- Loop body of `RetrievalService._deduplicate_documents` (identical to
the inline loop in `nodes.retrieve`): walk the list keeping a set of seen
contents, keeping only the first occurrence of each text content. -/
def dedupAux (seen : List String) : List Doc → List Doc
  | [] => []
  | d :: rest =>
      if d.content ∈ seen then dedupAux seen rest
      else d :: dedupAux (d.content :: seen) rest

/-- `RetrievalService._deduplicate_documents(documents)`. -/
def deduplicate_documents (docs : List Doc) : List Doc :=
  dedupAux [] docs

/-- Modelled from the spec: "Union and de-duplicate by exact text-content
equality, preserving first-seen order".  This is the declarative
first-occurrence formulation used to check the code version against the
words of the spec: keep the head, delete every later document with equal
text content, recurse. -/
def dedupSpecFirst : List Doc → List Doc
  | [] => []
  | d :: rest =>
      d :: dedupSpecFirst (rest.filter (fun x => !(x.content == d.content)))
  termination_by l => l.length
  decreasing_by
    simp only [List.length_cons]
    exact Nat.lt_succ_of_le (List.length_filter_le _ _)

/-- Model of `_build_where_clause` (retrieval_service) and of the inline
where-clause construction in `nodes.retrieve`: drop `None` fields of the
model dump (in declaration order: company, category) and return `none`
when no constraint remains.  The ChromaDB dict shapes (single equality vs
an and-list) are both represented as the list of equality constraints. -/
def buildWhereClause (m : Metadata) : Option (List (String × String)) :=
  let cleaned :=
    (match m.company with | some c => [("company", c)] | none => []) ++
    (match m.category with | some c => [("category", c)] | none => [])
  if cleaned = [] then none else some cleaned

/-- Shared rendering of the conversation context for the refiner prompt.
`nodes.query_construct` computes `messages[:-1][-2:]`;
`AgentService.query_construct` computes `messages[-3:-1]`; the two slices
are equal.  When there is at most one message the literal first-question
marker is used. -/
def conversationContext (messages : List Message) : String :=
  if messages.length > 1 then
    let previous := messages.dropLast
    let ctx := previous.drop (previous.length - 2)
    String.intercalate "\n"
      (ctx.map fun m =>
        (if m.role = Role.user then "User: " else "Assistant: ") ++ m.content)
  else "This is the first question from the user."

/-- Context block handed to the generator: join the selected passages with
blank lines, or the explicit no-documents marker (identical in
`nodes.generate_answer` and `AgentService.generate_answer`). -/
def contextOf (docs : List String) : String :=
  if docs = [] then "No relevant documents were found."
  else String.intercalate "\n\n" docs

/-! ### Sorting

`AgentService.retrieve` sorts with
`sorted(zip(scores, docs), key=lambda x: x[0], reverse=True)`: the stable
sort by score descending.  It is modelled by insertion sort under the
relation below (insertion from the right places each element before the
tied elements that follow it in the input, which is exactly Python
stability under `reverse=True`).

`nodes.retrieve` instead sorts `(score, Document)` tuples directly with
`scored_docs.sort(reverse=True)`.  Python tuple comparison falls through
to comparing the `Document` objects when the scores are equal, and
`Document` does not support ordering, so the comparison raises
`TypeError`.  This is modelled by an error-propagating insertion sort
whose comparator fails on equal scores with distinct documents. -/

/-- Relation ordering scored documents by score descending. -/
def rerankRel (a b : Rat × Doc) : Prop := b.1 ≤ a.1

instance : DecidableRel rerankRel := fun a b =>
  inferInstanceAs (Decidable (b.1 ≤ a.1))

instance : IsTotal (Rat × Doc) rerankRel :=
  ⟨fun a b => le_total b.1 a.1⟩

instance : IsTrans (Rat × Doc) rerankRel :=
  ⟨fun _ _ _ h1 h2 => le_trans h2 h1⟩

/-- Stable descending sort by score, modelling Python
`sorted(..., key=lambda x: x[0], reverse=True)`. -/
def stableSortDesc (l : List (Rat × Doc)) : List (Rat × Doc) :=
  List.insertionSort rerankRel l

/-- Python comparison of two `(score, Document)` tuples, asking whether
`a` should be placed before `b` in a descending sort.  When the scores tie
the comparison reaches the `Document` operands and raises `TypeError`,
modelled as `Except.error ()` (two equal tuples compare without error). -/
def pyTupleGe (a b : Rat × Doc) : Except Unit Bool :=
  if a.1 = b.1 then
    (if a.2 = b.2 then Except.ok true else Except.error ())
  else Except.ok (decide (b.1 < a.1))

/-- Insertion step for the error-propagating descending tuple sort. -/
def pyOrderedInsert (a : Rat × Doc) : List (Rat × Doc) → Except Unit (List (Rat × Doc))
  | [] => Except.ok [a]
  | b :: l =>
    match pyTupleGe a b with
    | Except.error e => Except.error e
    | Except.ok true => Except.ok (a :: b :: l)
    | Except.ok false =>
      match pyOrderedInsert a l with
      | Except.error e => Except.error e
      | Except.ok t => Except.ok (b :: t)

/-- Model of `scored_docs.sort(reverse=True)` in `nodes.retrieve`: a
descending sort over `(score, Document)` tuples that raises when two tied
scores force a comparison of the documents. -/
def pySortDesc : List (Rat × Doc) → Except Unit (List (Rat × Doc))
  | [] => Except.ok []
  | b :: l =>
    match pySortDesc l with
    | Except.error e => Except.error e
    | Except.ok t => pyOrderedInsert b t

/-! ### The standalone pipeline of `nodes.py` / `graph.py` -/

/-- External effects used by the `nodes.py` pipeline.  Each field models
one call site; `Except.error ()` is a raised exception.
`refine` is the outcome of `structured_llm.invoke` (which can also return
`None`), taking the rendered conversation context and the user query.
`cacheSearch` is `cache_store.similarity_search_with_score(query, k=1)`;
`semanticSearch` is `chroma_store.similarity_search` (query and optional
where clause); `keywordSearch` is `bm25_retriever.invoke`;
`rerank` is `reranker_model.predict` on (query, content) pairs;
`generate` is `(prompt | llm).invoke` returning the answer content, taking
the context block and the question; `cacheAdd` is
`cache_store.add_documents` on the new cache entry. -/
structure NodesOracles where
  refine : String → String → Except Unit (Option QueryConstruct)
  cacheSearch : String → Except Unit (List (CacheEntry × Rat))
  semanticSearch : String → Option (List (String × String)) → Except Unit (List Doc)
  keywordSearch : String → Except Unit (List Doc)
  rerank : List (String × String) → Except Unit (List Rat)
  generate : String → String → Except Unit String
  cacheAdd : String → String → Except Unit Unit

/-- Model of `nodes.query_construct`.  Reads `messages[-1]` (an empty
history would raise, modelled by `Except.error`), renders the context,
invokes the refiner, and falls back to the verbatim query with an unset
filter when the refiner raises or returns `None`. -/
def query_construct (o : NodesOracles) (st : AgentState) : Except Unit AgentState :=
  match st.messages.getLast? with
  | none => Except.error ()
  | some lastMsg =>
    let query := lastMsg.content
    let ctx := conversationContext st.messages
    match o.refine ctx query with
    | Except.error _ =>
        Except.ok { st with structured_query := some ⟨Metadata.unset, query⟩ }
    | Except.ok none =>
        Except.ok { st with structured_query := some ⟨Metadata.unset, query⟩ }
    | Except.ok (some q) =>
        Except.ok { st with structured_query := some q }

/-- Model of `nodes.check_cache`.  There is no exception handling in this
node: a failing cache search propagates.  The hit test is
`results and (1 - abs(results[0][1]) >= 0.90)`; on a hit the stored
response is appended as an `AIMessage` (a missing response would make the
`AIMessage` constructor raise a validation error, modelled as
`Except.error`). -/
def check_cache (o : NodesOracles) (st : AgentState) : Except Unit AgentState :=
  match st.structured_query with
  | none => Except.error ()
  | some sq =>
    match o.cacheSearch sq.refined_query with
    | Except.error e => Except.error e
    | Except.ok [] => Except.ok { st with cache_hit := false }
    | Except.ok ((e, score) :: _) =>
      if (9 : Rat)/10 ≤ 1 - abs score then
        match e.response with
        | none => Except.error ()
        | some ans =>
            Except.ok { st with cache_hit := true,
                                messages := st.messages ++ [aiMessage ans] }
      else Except.ok { st with cache_hit := false }

/-- Body of the `try` block in `nodes.retrieve`: hybrid search, inline
de-duplication, rerank (scoring, tuple sort, top 2) when the candidate set
is not empty. -/
def retrieveBody (o : NodesOracles) (sq : QueryConstruct) : Except Unit (List String) :=
  match o.semanticSearch sq.refined_query (buildWhereClause sq.filter) with
  | Except.error e => Except.error e
  | Except.ok semantic =>
    match o.keywordSearch sq.refined_query with
    | Except.error e => Except.error e
    | Except.ok keyword =>
      let uniqueDocs := deduplicate_documents (semantic ++ keyword)
      if uniqueDocs = [] then Except.ok []
      else
        match o.rerank (uniqueDocs.map fun d => (sq.refined_query, d.content)) with
        | Except.error e => Except.error e
        | Except.ok scores =>
          match pySortDesc (scores.zip uniqueDocs) with
          | Except.error e => Except.error e
          | Except.ok sortedDocs =>
              Except.ok ((sortedDocs.take 2).map fun p => p.2.content)

/-- Model of `nodes.retrieve`: every failure inside the body (either
retrieval branch, reranker scoring, or the tuple sort) is caught by the
blanket `except`, which sets `source_documents` to the empty list. -/
def retrieve (o : NodesOracles) (st : AgentState) : Except Unit AgentState :=
  match st.structured_query with
  | none => Except.error ()
  | some sq =>
    match retrieveBody o sq with
    | Except.ok docs => Except.ok { st with source_documents := docs }
    | Except.error _ => Except.ok { st with source_documents := [] }

/-- The fallback appended by `nodes.generate_answer` when the model output
is empty. -/
def nodesEmptyFallback : String :=
  "I was unable to generate a response for this query, possibly due to a content filter. Please try rephrasing your question."

/-- The apology appended by the `except` handler of
`nodes.generate_answer`. -/
def nodesErrorApology (q : String) : String :=
  "I apologize, but I encountered an error while processing your query: '" ++ q ++ "'. Please try again."

/-- Model of `nodes.generate_answer`.  Inside the `try`: invoke the
generator; on empty content append the empty-output fallback (no cache
write); otherwise append the answer and then write the cache entry.  The
cache write happens after the append, so when `add_documents` raises the
`except` handler appends the apology as a second assistant message. -/
def generate_answer (o : NodesOracles) (st : AgentState) : Except Unit AgentState :=
  match st.messages.getLast?, st.structured_query with
  | some lastMsg, some sq =>
    let original_query := lastMsg.content
    let context := contextOf st.source_documents
    match o.generate context original_query with
    | Except.error _ =>
        Except.ok { st with
          messages := st.messages ++ [aiMessage (nodesErrorApology original_query)] }
    | Except.ok content =>
      if content = "" then
        Except.ok { st with messages := st.messages ++ [aiMessage nodesEmptyFallback] }
      else
        match o.cacheAdd sq.refined_query content with
        | Except.ok _ =>
            Except.ok { st with
              messages := st.messages ++ [aiMessage content],
              cacheWrites := st.cacheWrites ++ [(sq.refined_query, content)] }
        | Except.error _ =>
            Except.ok { st with
              messages := st.messages ++
                [aiMessage content, aiMessage (nodesErrorApology original_query)] }
  | _, _ => Except.error ()

/-- `graph.route_after_cache`. -/
def route_after_cache (st : AgentState) : String :=
  if st.cache_hit then "end" else "retrieve"

/-- Execution of the graph compiled by `graph.create_graph`: entry point
`query_construct`, then `check_cache`, then the conditional edge keyed by
`route_after_cache` leading either to `END` or to
`retrieve → generate_answer → END`.  The returned list records the nodes
that executed. -/
def runNodesGraph (o : NodesOracles) (init : AgentState) :
    Except Unit (AgentState × List String) :=
  match query_construct o init with
  | Except.error e => Except.error e
  | Except.ok s1 =>
    match check_cache o s1 with
    | Except.error e => Except.error e
    | Except.ok s2 =>
      if route_after_cache s2 = "end" then
        Except.ok (s2, ["query_construct", "check_cache"])
      else
        match retrieve o s2 with
        | Except.error e => Except.error e
        | Except.ok s3 =>
          match generate_answer o s3 with
          | Except.error e => Except.error e
          | Except.ok s4 =>
              Except.ok (s4, ["query_construct", "check_cache", "retrieve", "generate_answer"])

/-! ### The service-layer pipeline (`app/assistant/controller/`) -/

/-- External effects used by the service-layer pipeline.
`analyze` is the outcome of the structured Gemini call in
`ModelService.analyze_query_sync` (context, query); `phi3` is the outcome
of the locked local inference block in `run_phi3_inference_sync`
(question, context), already decoded and stripped; `rerank` is
`self._reranker_model.predict` as a list of scores; the rest mirror
`NodesOracles`. -/
structure SvcOracles where
  analyze : String → String → Except Unit (Option QueryConstruct)
  cacheSearch : String → Except Unit (List (CacheEntry × Rat))
  semanticSearch : String → Option (List (String × String)) → Except Unit (List Doc)
  keywordSearch : String → Except Unit (List Doc)
  rerank : String → List String → Except Unit (List Rat)
  phi3 : String → String → Except Unit String
  cacheAdd : String → String → Except Unit Unit

/-- Model of `ModelService.analyze_query_sync`.  Only a raised exception
is caught (returning the unset-filter fallback with the verbatim query);
a `None` result of the structured call is returned unchanged. -/
def analyze_query_sync (o : SvcOracles) (query conversation_context : String) :
    Option QueryConstruct :=
  match o.analyze conversation_context query with
  | Except.error _ => some ⟨Metadata.unset, query⟩
  | Except.ok r => r

/-- Model of `ModelService.run_phi3_inference_sync`: the whole inference
block is inside `try`, returning a fixed apology string on any error. -/
def run_phi3_inference_sync (o : SvcOracles) (question context : String) : String :=
  match o.phi3 question context with
  | Except.error _ => "I apologize, but I encountered an error while generating a response."
  | Except.ok s => s

/-- Model of `ModelService.rerank_documents_sync`: scoring failures are
caught and replaced by the neutral uniform score 0.5 per document. -/
def rerank_documents_sync (o : SvcOracles) (query : String)
    (documents : List String) : List Rat :=
  match o.rerank query documents with
  | Except.error _ => List.replicate documents.length ((1 : Rat)/2)
  | Except.ok scores => scores

/-- Model of `CacheService.get_cached_response_sync`, parameterised by the
top-1 similarity search.  No exception handling: a failing search
propagates.  The similarity is `1 - score` (no absolute value here,
unlike `nodes.check_cache`) and the hit threshold is 0.90; on a hit the
raw `metadata.get("response")` is returned, which may be absent. -/
def get_cached_response_sync
    (search : String → Except Unit (List (CacheEntry × Rat)))
    (query : String) : Except Unit (Option String) :=
  match search query with
  | Except.error e => Except.error e
  | Except.ok [] => Except.ok none
  | Except.ok ((e, score) :: _) =>
    if (9 : Rat)/10 ≤ 1 - score then Except.ok e.response
    else Except.ok none

/-- Model of `RetrievalService.hybrid_search_sync`: semantic branch with
the built where clause, keyword branch, then de-duplication.  No exception
handling here — a failing branch propagates to the caller. -/
def hybrid_search_sync (o : SvcOracles) (query : String) (mf : Metadata) :
    Except Unit (List Doc) :=
  match o.semanticSearch query (buildWhereClause mf) with
  | Except.error e => Except.error e
  | Except.ok semantic =>
    match o.keywordSearch query with
    | Except.error e => Except.error e
    | Except.ok keyword => Except.ok (deduplicate_documents (semantic ++ keyword))

/-- Model of `AgentService.query_construct`: renders the context
(`messages[-3:-1]`), calls `analyze_query_sync`, and stores its result —
including a possible `None` — in `structured_query`. -/
def svc_query_construct (o : SvcOracles) (st : AgentState) : Except Unit AgentState :=
  match st.messages.getLast? with
  | none => Except.error ()
  | some lastMsg =>
    let ctx := conversationContext st.messages
    Except.ok { st with structured_query := analyze_query_sync o lastMsg.content ctx }

/-- Model of `AgentService.check_cache`.  Accessing `refined_query` on a
`None` structured query raises (`Except.error`).  The cached response is
tested with Python truthiness: both `None` and the empty string count as
a miss; a truthy response is appended and `cache_hit` set. -/
def svc_check_cache (o : SvcOracles) (st : AgentState) : Except Unit AgentState :=
  match st.structured_query with
  | none => Except.error ()
  | some sq =>
    match get_cached_response_sync o.cacheSearch sq.refined_query with
    | Except.error e => Except.error e
    | Except.ok (some s) =>
        if s = "" then Except.ok { st with cache_hit := false }
        else Except.ok { st with cache_hit := true,
                                 messages := st.messages ++ [aiMessage s] }
    | Except.ok none => Except.ok { st with cache_hit := false }

/-- Model of `AgentService.retrieve`: hybrid search (uncaught failures
propagate), then reranking via `rerank_documents_sync` and the stable
key-based descending sort `sorted(zip(scores, docs), key=lambda x: x[0],
reverse=True)`, keeping the top 2 contents. -/
def svc_retrieve (o : SvcOracles) (st : AgentState) : Except Unit AgentState :=
  match st.structured_query with
  | none => Except.error ()
  | some sq =>
    match hybrid_search_sync o sq.refined_query sq.filter with
    | Except.error e => Except.error e
    | Except.ok docs =>
      if docs = [] then Except.ok { st with source_documents := [] }
      else
        let scores := rerank_documents_sync o sq.refined_query (docs.map Doc.content)
        let scored := stableSortDesc (scores.zip docs)
        Except.ok { st with source_documents := (scored.take 2).map fun p => p.2.content }

/-- Model of `AgentService.generate_answer`: run the (error-swallowing)
local inference, substitute the apology when the answer is empty, then
unconditionally write the answer — apology included — to the cache before
appending it.  A failing cache write propagates out of the node. -/
def svc_generate_answer (o : SvcOracles) (st : AgentState) : Except Unit AgentState :=
  match st.structured_query, st.messages.getLast? with
  | some sq, some lastMsg =>
    let context := contextOf st.source_documents
    let answer0 := run_phi3_inference_sync o lastMsg.content context
    let answer :=
      if answer0 = "" then "I apologize, but I was unable to generate a response for this query."
      else answer0
    match o.cacheAdd sq.refined_query answer with
    | Except.error e => Except.error e
    | Except.ok _ =>
        Except.ok { st with
          cacheWrites := st.cacheWrites ++ [(sq.refined_query, answer)],
          messages := st.messages ++ [aiMessage answer] }
  | _, _ => Except.error ()

/-- The conditional edge of `AgentService.initialize_services`:
`"hit" if state.get("cache_hit") else "miss"`. -/
def svcRoute (st : AgentState) : String :=
  if st.cache_hit then "hit" else "miss"

/-- Execution of the graph wired in `AgentService.initialize_services`:
`query_construct → check_cache`, conditional edge to `END` on a hit and to
`retrieve → generate_answer → END` on a miss, with the executed nodes
recorded. -/
def runSvcGraph (o : SvcOracles) (init : AgentState) :
    Except Unit (AgentState × List String) :=
  match svc_query_construct o init with
  | Except.error e => Except.error e
  | Except.ok s1 =>
    match svc_check_cache o s1 with
    | Except.error e => Except.error e
    | Except.ok s2 =>
      if svcRoute s2 = "hit" then
        Except.ok (s2, ["query_construct", "check_cache"])
      else
        match svc_retrieve o s2 with
        | Except.error e => Except.error e
        | Except.ok s3 =>
          match svc_generate_answer o s3 with
          | Except.error e => Except.error e
          | Except.ok s4 =>
              Except.ok (s4, ["query_construct", "check_cache", "retrieve", "generate_answer"])

/-- Errors surfaced by the `AgentService` entry points: the
`RuntimeError` raised when the workflow has not been initialized, and any
exception escaping the graph invocation. -/
inductive ProcError where
  | notInitialized
  | graphFailure
deriving Repr, DecidableEq

/-- Checkpoint lookup: the saved state for a thread id, if any. -/
def storeLookup (store : List (String × AgentState)) (threadId : String) :
    Option AgentState :=
  (store.find? fun p => p.1 = threadId).map Prod.snd

/-- Checkpoint write: replace the record for the thread id, or append a
new one. -/
def storeUpdate (store : List (String × AgentState)) (threadId : String)
    (st : AgentState) : List (String × AgentState) :=
  match store with
  | [] => [(threadId, st)]
  | p :: rest =>
      if p.1 = threadId then (threadId, st) :: rest
      else p :: storeUpdate rest threadId st

/-- Model of `AgentService.process_sync`.  `workflow` is `None` until
`initialize_services` has run; in that case the method raises
`RuntimeError` before any graph or checkpoint work.  Otherwise the
checkpointed state for the thread is loaded (the `add_messages` channel
appends the new user message to the saved history), the graph is invoked,
and the resulting state is checkpointed. -/
def process_sync (workflow : Option Unit) (o : SvcOracles)
    (store : List (String × AgentState)) (threadId query : String) :
    Except ProcError (AgentState × List (String × AgentState)) :=
  match workflow with
  | none => Except.error ProcError.notInitialized
  | some _ =>
    let st0 : AgentState :=
      match storeLookup store threadId with
      | some saved => { saved with messages := saved.messages ++ [humanMessage query] }
      | none =>
          { messages := [humanMessage query], structured_query := none,
            source_documents := [], cache_hit := false, cacheWrites := [] }
    match runSvcGraph o st0 with
    | Except.error _ => Except.error ProcError.graphFailure
    | Except.ok (fin, _) => Except.ok (fin, storeUpdate store threadId fin)

/-- Model of `AgentService.get_conversation_history_sync`: the
`RuntimeError` guard runs before the `try` block; once initialized the
latest checkpoint is read without mutation, with an empty history when no
checkpoint exists. -/
def get_conversation_history_sync (workflow : Option Unit)
    (store : List (String × AgentState)) (threadId : String) :
    Except ProcError (List Message) :=
  match workflow with
  | none => Except.error ProcError.notInitialized
  | some _ =>
    Except.ok (((storeLookup store threadId).map AgentState.messages).getD [])

/-! ### Semantics of the top-1 cache similarity search

The redis vector store with `COSINE` distance returns, for `k = 1`, the
stored entry nearest to the query embedding together with its distance;
ties are broken by store order.  The embedding geometry is abstracted as a
distance function from (query, key) pairs to rationals. -/

/-- Top-1 similarity search over a concrete store: the entry minimising
the distance to the query, earliest entry winning ties, paired with its
distance; the empty list for an empty store. -/
def distanceSearchTop1 (dist : String → String → Rat)
    (store : List CacheEntry) (q : String) : List (CacheEntry × Rat) :=
  match store with
  | [] => []
  | e :: rest =>
    let best := rest.foldl (fun b x => if dist q x.key < dist q b.key then x else b) e
    [(best, dist q best.key)]

/-- The cache-search oracle backed by a concrete store and distance. -/
def storeOracleSearch (dist : String → String → Rat) (store : List CacheEntry) :
    String → Except Unit (List (CacheEntry × Rat)) :=
  fun q => Except.ok (distanceSearchTop1 dist store q)

/-! ### Concrete fixtures

Oracles and states used to evaluate the pipelines at specific inputs. -/

/-- Fresh per-turn state holding only the new user message, as built by
`process_sync`. -/
def initState (q : String) : AgentState :=
  { messages := [humanMessage q], structured_query := none,
    source_documents := [], cache_hit := false, cacheWrites := [] }

/-- A state in which `query_construct` has already run: one user message
and a refined structured query. -/
def sqFix : QueryConstruct := ⟨Metadata.unset, "refined query"⟩

/-- State after query construction, used to evaluate individual nodes. -/
def stSq : AgentState :=
  { messages := [humanMessage "user question"], structured_query := some sqFix,
    source_documents := [], cache_hit := false, cacheWrites := [] }

/-- Baseline oracle set for the standalone pipeline: refiner raises (so
the verbatim fallback is used), empty cache, empty retrieval, generation
succeeds, cache writes succeed. -/
def okNodesO : NodesOracles :=
  { refine := fun _ _ => Except.error ()
    cacheSearch := fun _ => Except.ok []
    semanticSearch := fun _ _ => Except.ok []
    keywordSearch := fun _ => Except.ok []
    rerank := fun _ => Except.ok []
    generate := fun _ _ => Except.ok "Generated answer."
    cacheAdd := fun _ _ => Except.ok () }

/-- Baseline oracle set for the service-layer pipeline. -/
def okSvcO : SvcOracles :=
  { analyze := fun _ _ => Except.error ()
    cacheSearch := fun _ => Except.ok []
    semanticSearch := fun _ _ => Except.ok []
    keywordSearch := fun _ => Except.ok []
    rerank := fun _ _ => Except.ok []
    phi3 := fun _ _ => Except.ok "Generated answer."
    cacheAdd := fun _ _ => Except.ok () }

/-- The user text used by the concrete runs. -/
def qFix : String := "What are the main financial risks?"

/-- Oracles whose cache similarity search raises. -/
def cacheFailNodesO : NodesOracles :=
  { okNodesO with cacheSearch := fun _ => Except.error () }

/-- Oracles whose cache write raises after a successful generation. -/
def addFailNodesO : NodesOracles :=
  { okNodesO with cacheAdd := fun _ _ => Except.error () }

/-- Oracles producing a cache hit: one stored entry at cosine distance 0. -/
def hitNodesO : NodesOracles :=
  { okNodesO with
    cacheSearch := fun _ => Except.ok [(⟨"stored key", some "cached answer"⟩, 0)] }

/-- Service oracles whose local generation raises (the inference wrapper
swallows the error and substitutes its apology). -/
def svcGenFailO : SvcOracles :=
  { okSvcO with phi3 := fun _ _ => Except.error () }

/-- Two distinct candidate documents. -/
def docA : Doc := ⟨"alpha content", []⟩

/-- Second candidate document. -/
def docB : Doc := ⟨"beta content", []⟩

/-- Standalone-pipeline oracles retrieving two documents that the
reranker scores equally. -/
def tieNodesO : NodesOracles :=
  { okNodesO with
    semanticSearch := fun _ _ => Except.ok [docA, docB]
    rerank := fun _ => Except.ok [(1 : Rat)/2, (1 : Rat)/2] }

/-- Service-layer oracles retrieving the same two documents with the same
tied scores. -/
def tieSvcO : SvcOracles :=
  { okSvcO with
    semanticSearch := fun _ _ => Except.ok [docA, docB]
    rerank := fun _ _ => Except.ok [(1 : Rat)/2, (1 : Rat)/2] }

/-- Service-layer oracles with two documents and distinct scores (the
second document scores higher). -/
def scoredSvcO : SvcOracles :=
  { okSvcO with
    semanticSearch := fun _ _ => Except.ok [docA, docB]
    rerank := fun _ _ => Except.ok [(1 : Rat)/4, (3 : Rat)/4] }

/-- Standalone-pipeline oracles where retrieval finds one document but
reranker scoring raises. -/
def rerankFailNodesO : NodesOracles :=
  { okNodesO with
    semanticSearch := fun _ _ => Except.ok [docA]
    rerank := fun _ => Except.error () }

/-- Service-layer oracles where retrieval finds two documents but
reranker scoring raises. -/
def rerankFailSvcO : SvcOracles :=
  { okSvcO with
    semanticSearch := fun _ _ => Except.ok [docA, docB]
    rerank := fun _ _ => Except.error () }

/-- Service-layer oracles whose structured query call returns `None`. -/
def svcNoneO : SvcOracles :=
  { okSvcO with analyze := fun _ _ => Except.ok none }

/-- Standalone-pipeline oracles whose refiner parses successfully but
returns an empty refined query. -/
def emptyRefineNodesO : NodesOracles :=
  { okNodesO with refine := fun _ _ => Except.ok (some ⟨Metadata.unset, ""⟩) }

/-- Distance function for the concrete cache-store fixtures: the stored
key is very close to every query, anything else is far. -/
def wDist : String → String → Rat :=
  fun _ k => if k = "stored key" then (1 : Rat)/20 else 1

/-- A far cache entry preceding the near one in store order. -/
def wFar : CacheEntry := ⟨"unrelated question", some "other answer"⟩

/-- The near cache entry. -/
def wNear : CacheEntry := ⟨"stored key", some "stored answer"⟩

/-- Service oracles backed by a one-entry cache store whose single entry
is at distance 0 but stores an empty response. -/
def emptyRespSvcO : SvcOracles :=
  { okSvcO with
    cacheSearch := storeOracleSearch (fun _ _ => 0) [⟨"stored key", some ""⟩] }

/-! ### Helper lemmas: de-duplication -/

/-- De-duplication yields a sublist of the input (first-seen order is
preserved). -/
theorem dedupAux_sublist (seen : List String) (l : List Doc) :
    (dedupAux seen l).Sublist l := by
  induction l generalizing seen with
  | nil => simp [dedupAux]
  | cons d rest ih =>
    by_cases h : d.content ∈ seen
    · simpa [dedupAux, h] using (ih seen).cons d
    · simpa [dedupAux, h] using (ih (d.content :: seen)).cons₂ d

/-- Contents surviving de-duplication: exactly the input contents that are
not already in the seen set. -/
theorem mem_dedupAux_content (c : String) (seen : List String) (l : List Doc) :
    c ∈ (dedupAux seen l).map Doc.content ↔
      (c ∈ l.map Doc.content ∧ c ∉ seen) := by
  induction l generalizing seen with
  | nil => simp [dedupAux]
  | cons d rest ih =>
    by_cases h : d.content ∈ seen
    · simp only [dedupAux, if_pos h, ih, List.map_cons, List.mem_cons]
      constructor
      · rintro ⟨h1, h2⟩
        exact ⟨Or.inr h1, h2⟩
      · rintro ⟨h1 | h1, h2⟩
        · exact absurd (h1 ▸ h) h2
        · exact ⟨h1, h2⟩
    · simp only [dedupAux, if_neg h, List.map_cons, List.mem_cons, ih]
      constructor
      · rintro (rfl | ⟨h1, h2⟩)
        · exact ⟨Or.inl rfl, h⟩
        · exact ⟨Or.inr h1, fun hc => h2 (Or.inr hc)⟩
      · rintro ⟨h1 | h1, h2⟩
        · exact Or.inl h1
        · by_cases hc : c = d.content
          · exact Or.inl hc
          · exact Or.inr ⟨h1, fun hor => hor.elim hc h2⟩

/-- De-duplicated contents are pairwise distinct. -/
theorem nodup_dedupAux (seen : List String) (l : List Doc) :
    ((dedupAux seen l).map Doc.content).Nodup := by
  induction l generalizing seen with
  | nil => simp [dedupAux]
  | cons d rest ih =>
    by_cases h : d.content ∈ seen
    · simpa [dedupAux, h] using ih seen
    · simp only [dedupAux, if_neg h, List.map_cons, List.nodup_cons]
      refine ⟨?_, ih _⟩
      intro hmem
      rw [mem_dedupAux_content] at hmem
      exact hmem.2 (List.mem_cons_self _ _)

/-- A list with pairwise distinct contents, none of them seen, passes
through de-duplication unchanged. -/
theorem dedupAux_eq_self (l : List Doc) (h : (l.map Doc.content).Nodup)
    (seen : List String) (hd : ∀ c ∈ l.map Doc.content, c ∉ seen) :
    dedupAux seen l = l := by
  induction l generalizing seen with
  | nil => rfl
  | cons d rest ih =>
    have h1 : d.content ∉ seen := hd _ (by simp)
    simp only [List.map_cons, List.nodup_cons] at h
    simp only [dedupAux, if_neg h1]
    congr 1
    refine ih h.2 _ fun c hc => ?_
    simp only [List.mem_cons]
    rintro (rfl | hs)
    · exact h.1 hc
    · exact hd c (by simp [hc]) hs

/-- De-duplication agrees with the first-occurrence specification, up to
pre-filtering by the seen set. -/
theorem dedupAux_eq_spec (l : List Doc) (seen : List String) :
    dedupAux seen l =
      dedupSpecFirst (l.filter fun d => decide (d.content ∉ seen)) := by
  induction l generalizing seen with
  | nil => simp [dedupAux, dedupSpecFirst]
  | cons d rest ih =>
    by_cases h : d.content ∈ seen
    · simp only [dedupAux, if_pos h, List.filter_cons]
      rw [if_neg (by simp [h])]
      exact ih seen
    · simp only [dedupAux, if_neg h, List.filter_cons]
      rw [if_pos (by simp [h])]
      rw [dedupSpecFirst, List.filter_filter]
      rw [ih (d.content :: seen)]
      congr 2
      apply List.filter_congr
      intro x _
      by_cases hx : x.content = d.content <;> by_cases hy : x.content ∈ seen <;>
        simp [hx, hy]

/-! ### Helper lemmas: the stable descending sort -/

/-- Inserting an element commutes with filtering by an exact score value:
the inserted element lands before every tied element already present,
because the scan only passes elements with strictly greater score. -/
theorem filter_orderedInsert (c : Rat) (a : Rat × Doc) (s : List (Rat × Doc)) :
    (List.orderedInsert rerankRel a s).filter (fun p => decide (p.1 = c)) =
      if a.1 = c then a :: s.filter (fun p => decide (p.1 = c))
      else s.filter (fun p => decide (p.1 = c)) := by
  induction s with
  | nil => by_cases h : a.1 = c <;> simp [h]
  | cons b t ih =>
    simp only [List.orderedInsert]
    by_cases hr : rerankRel a b
    · rw [if_pos hr]
      by_cases h : a.1 = c <;> simp [List.filter_cons, h]
    · rw [if_neg hr]
      have hgt : a.1 < b.1 := lt_of_not_le hr
      by_cases hb : b.1 = c
      · by_cases h : a.1 = c
        · exact absurd (h.trans hb.symm) (ne_of_lt hgt)
        · simp [List.filter_cons, hb, h, ih]
      · by_cases h : a.1 = c <;> simp [List.filter_cons, hb, h, ih]

/-- Stability of the descending sort: for every score value, the tied
elements appear in the output in their input order. -/
theorem stableSortDesc_filter (c : Rat) (l : List (Rat × Doc)) :
    (stableSortDesc l).filter (fun p => decide (p.1 = c)) =
      l.filter (fun p => decide (p.1 = c)) := by
  induction l with
  | nil => rfl
  | cons a t ih =>
    simp only [stableSortDesc, List.insertionSort] at ih ⊢
    rw [filter_orderedInsert]
    by_cases h : a.1 = c <;> simp [List.filter_cons, h, ih]

/-- A uniformly scored list is left unchanged by the descending sort. -/
theorem stableSortDesc_uniform (c : Rat) (l : List (Rat × Doc))
    (h : ∀ p ∈ l, p.1 = c) : stableSortDesc l = l := by
  induction l with
  | nil => rfl
  | cons a t ih =>
    have ha : a.1 = c := h a (by simp)
    have ht : stableSortDesc t = t := ih fun p hp => h p (by simp [hp])
    simp only [stableSortDesc, List.insertionSort] at ht ⊢
    rw [ht]
    cases t with
    | nil => rfl
    | cons b t2 =>
      have hb : b.1 = c := h b (by simp)
      simp [List.orderedInsert, rerankRel, ha, hb]

/-- Zipping a replicated score list pairs the constant score with each
document. -/
theorem replicate_zip (c : Rat) (l : List Doc) :
    (List.replicate l.length c).zip l = l.map fun d => (c, d) := by
  induction l with
  | nil => rfl
  | cons d rest ih => simp [List.replicate, ih]

/-! ### Helper lemmas: the top-1 cache search -/

/-- The running minimum is kept when no later element is strictly
closer. -/
theorem cacheFold_keep (dist : String → String → Rat) (q : String)
    (e : CacheEntry) (l : List CacheEntry)
    (h : ∀ x ∈ l, dist q e.key ≤ dist q x.key) :
    l.foldl (fun b x => if dist q x.key < dist q b.key then x else b) e = e := by
  induction l with
  | nil => rfl
  | cons x t ih =>
    have hx : ¬ dist q x.key < dist q e.key := not_lt.mpr (h x (by simp))
    simp only [List.foldl, if_neg hx]
    exact ih fun y hy => h y (by simp [hy])

/-- The running minimum reaches the first strict minimum of the list. -/
theorem cacheFold_reach (dist : String → String → Rat) (q : String)
    (l1 : List CacheEntry) (e : CacheEntry) (l2 : List CacheEntry)
    (b : CacheEntry) (hb : dist q e.key < dist q b.key)
    (h1 : ∀ x ∈ l1, dist q e.key < dist q x.key)
    (h2 : ∀ x ∈ l2, dist q e.key ≤ dist q x.key) :
    (l1 ++ e :: l2).foldl
      (fun b x => if dist q x.key < dist q b.key then x else b) b = e := by
  induction l1 generalizing b with
  | nil =>
    simp only [List.nil_append, List.foldl, if_pos hb]
    exact cacheFold_keep dist q e l2 h2
  | cons a t ih =>
    simp only [List.cons_append, List.foldl]
    by_cases ha : dist q a.key < dist q b.key
    · rw [if_pos ha]
      exact ih a (h1 a (List.mem_cons_self _ _))
        fun x hx => h1 x (List.mem_cons_of_mem _ hx)
    · rw [if_neg ha]
      exact ih b hb fun x hx => h1 x (List.mem_cons_of_mem _ hx)

/-- Characterisation of the top-1 similarity search: when the store splits
as `l1 ++ e :: l2` with `e` strictly closer than everything before it and
at least as close as everything after it, the search returns `e` with its
distance. -/
theorem distanceSearchTop1_eq (dist : String → String → Rat)
    (l1 : List CacheEntry) (e : CacheEntry) (l2 : List CacheEntry) (q : String)
    (h1 : ∀ x ∈ l1, dist q e.key < dist q x.key)
    (h2 : ∀ x ∈ l2, dist q e.key ≤ dist q x.key) :
    distanceSearchTop1 dist (l1 ++ e :: l2) q = [(e, dist q e.key)] := by
  cases l1 with
  | nil =>
    simp only [List.nil_append, distanceSearchTop1]
    rw [cacheFold_keep dist q e l2 h2]
  | cons a t =>
    simp only [List.cons_append, distanceSearchTop1]
    rw [cacheFold_reach dist q t e l2 a (h1 a (by simp))
      (fun x hx => h1 x (by simp [hx])) h2]

/-! ### Helper lemmas: node shapes in the standalone pipeline -/

/-- A nonempty history has a last message. -/
theorem exists_getLast (l : List Message) (h : l ≠ []) :
    ∃ m, l.getLast? = some m := by
  cases hl : l.getLast? with
  | none => exact absurd (List.getLast?_eq_none_iff.mp hl) h
  | some m => exact ⟨m, rfl⟩

/-- `nodes.query_construct` always succeeds on a nonempty history and only
sets `structured_query`. -/
theorem query_construct_shape (o : NodesOracles) (st : AgentState)
    (hmsg : st.messages ≠ []) :
    ∃ sq, query_construct o st =
      Except.ok { st with structured_query := some sq } := by
  obtain ⟨m, hm⟩ := exists_getLast st.messages hmsg
  rcases hr : o.refine (conversationContext st.messages) m.content with e | r
  · exact ⟨⟨Metadata.unset, m.content⟩, by simp [query_construct, hm, hr]⟩
  · cases r with
    | none => exact ⟨⟨Metadata.unset, m.content⟩, by simp [query_construct, hm, hr]⟩
    | some q => exact ⟨q, by simp [query_construct, hm, hr]⟩

/-- `nodes.check_cache` succeeds whenever the cache search succeeds with
results whose stored responses are present: either a hit appending one
assistant message, or a miss leaving the messages unchanged. -/
theorem check_cache_shape (o : NodesOracles) (st : AgentState)
    (sq : QueryConstruct) (hsq : st.structured_query = some sq)
    (res : List (CacheEntry × Rat))
    (hres : o.cacheSearch sq.refined_query = Except.ok res)
    (hresp : ∀ p ∈ res, p.1.response ≠ none) :
    (∃ a, check_cache o st = Except.ok
        { st with cache_hit := true, messages := st.messages ++ [aiMessage a] })
    ∨ check_cache o st = Except.ok { st with cache_hit := false } := by
  rcases res with _ | ⟨⟨e, score⟩, rest⟩
  · exact Or.inr (by simp [check_cache, hsq, hres])
  · by_cases hth : (9 : Rat)/10 ≤ 1 - abs score
    · rcases he : e.response with _ | ans
      · exact absurd he (hresp (e, score) (List.mem_cons_self _ _))
      · exact Or.inl ⟨ans, by simp [check_cache, hsq, hres, hth, he]⟩
    · exact Or.inr (by simp [check_cache, hsq, hres, hth])

/-- `nodes.retrieve` always succeeds (its body is wrapped in a blanket
`except`) and only sets `source_documents`. -/
theorem retrieve_shape (o : NodesOracles) (st : AgentState)
    (sq : QueryConstruct) (hsq : st.structured_query = some sq) :
    ∃ docs, retrieve o st = Except.ok { st with source_documents := docs } := by
  rcases hb : retrieveBody o sq with e | docs
  · exact ⟨[], by simp [retrieve, hsq, hb]⟩
  · exact ⟨docs, by simp [retrieve, hsq, hb]⟩

/-- `nodes.generate_answer` succeeds whenever cache writes succeed, and
appends exactly one assistant message. -/
theorem generate_answer_shape (o : NodesOracles) (st : AgentState)
    (sq : QueryConstruct) (m : Message)
    (hsq : st.structured_query = some sq)
    (hm : st.messages.getLast? = some m)
    (hadd : ∀ k v, o.cacheAdd k v = Except.ok ()) :
    ∃ a w, generate_answer o st = Except.ok
      { st with messages := st.messages ++ [aiMessage a],
                cacheWrites := st.cacheWrites ++ w } := by
  rcases hg : o.generate (contextOf st.source_documents) m.content with e | c
  · exact ⟨nodesErrorApology m.content, [],
      by simp [generate_answer, hm, hsq, hg]⟩
  · by_cases hc : c = ""
    · exact ⟨nodesEmptyFallback, [],
        by simp [generate_answer, hm, hsq, hg, hc]⟩
    · exact ⟨c, [(sq.refined_query, c)],
        by simp [generate_answer, hm, hsq, hg, hc, hadd sq.refined_query c]⟩

/-- `nodes.retrieve` never changes the `cache_hit` flag. -/
theorem retrieve_cache_hit (o : NodesOracles) (st st' : AgentState)
    (h : retrieve o st = Except.ok st') : st'.cache_hit = st.cache_hit := by
  unfold retrieve at h
  iterate 8 (all_goals (try (dsimp only at h)); all_goals (try split at h))
  all_goals cases h
  all_goals rfl

/-- `nodes.generate_answer` never changes the `cache_hit` flag. -/
theorem generate_answer_cache_hit (o : NodesOracles) (st st' : AgentState)
    (h : generate_answer o st = Except.ok st') : st'.cache_hit = st.cache_hit := by
  unfold generate_answer at h
  iterate 8 (all_goals (try (dsimp only at h)); all_goals (try split at h))
  all_goals cases h
  all_goals rfl

/-- `AgentService.retrieve` never changes the `cache_hit` flag. -/
theorem svc_retrieve_cache_hit (o : SvcOracles) (st st' : AgentState)
    (h : svc_retrieve o st = Except.ok st') : st'.cache_hit = st.cache_hit := by
  unfold svc_retrieve at h
  iterate 8 (all_goals (try (dsimp only at h)); all_goals (try split at h))
  all_goals cases h
  all_goals rfl

/-- `AgentService.generate_answer` never changes the `cache_hit` flag. -/
theorem svc_generate_answer_cache_hit (o : SvcOracles) (st st' : AgentState)
    (h : svc_generate_answer o st = Except.ok st') : st'.cache_hit = st.cache_hit := by
  unfold svc_generate_answer at h
  iterate 8 (all_goals (try (dsimp only at h)); all_goals (try split at h))
  all_goals cases h
  all_goals rfl

/-! ### Helper lemmas: case analysis of the graph runners -/

/-- Every successful run of the standalone graph is either a hit run
(two-node trace, `cache_hit` set) or a miss run (four-node trace,
`cache_hit` clear). -/
theorem runNodesGraph_cases (o : NodesOracles) (init s : AgentState)
    (tr : List String) (h : runNodesGraph o init = Except.ok (s, tr)) :
    (tr = ["query_construct", "check_cache"] ∧ s.cache_hit = true) ∨
    (tr = ["query_construct", "check_cache", "retrieve", "generate_answer"]
      ∧ s.cache_hit = false) := by
  unfold runNodesGraph at h
  rcases h1 : query_construct o init with e | s1 <;> rw [h1] at h <;> dsimp only at h
  · cases h
  · rcases h2 : check_cache o s1 with e | s2 <;> rw [h2] at h <;> dsimp only at h
    · cases h
    · by_cases hroute : route_after_cache s2 = "end"
      · rw [if_pos hroute] at h
        cases h
        refine Or.inl ⟨rfl, ?_⟩
        by_contra hc
        rw [Bool.not_eq_true] at hc
        rw [route_after_cache, hc] at hroute
        exact absurd hroute (by decide)
      · rw [if_neg hroute] at h
        rcases h3 : retrieve o s2 with e | s3 <;> rw [h3] at h <;> dsimp only at h
        · cases h
        · rcases h4 : generate_answer o s3 with e | s4 <;> rw [h4] at h <;>
            dsimp only at h
          · cases h
          · cases h
            refine Or.inr ⟨rfl, ?_⟩
            rw [generate_answer_cache_hit o s3 s h4,
              retrieve_cache_hit o s2 s3 h3]
            by_contra hc
            rw [Bool.not_eq_false] at hc
            exact hroute (by rw [route_after_cache, hc]; rfl)

/-- Every successful run of the service-layer graph is either a hit run or
a miss run. -/
theorem runSvcGraph_cases (o : SvcOracles) (init s : AgentState)
    (tr : List String) (h : runSvcGraph o init = Except.ok (s, tr)) :
    (tr = ["query_construct", "check_cache"] ∧ s.cache_hit = true) ∨
    (tr = ["query_construct", "check_cache", "retrieve", "generate_answer"]
      ∧ s.cache_hit = false) := by
  unfold runSvcGraph at h
  rcases h1 : svc_query_construct o init with e | s1 <;> rw [h1] at h <;>
    dsimp only at h
  · cases h
  · rcases h2 : svc_check_cache o s1 with e | s2 <;> rw [h2] at h <;> dsimp only at h
    · cases h
    · by_cases hroute : svcRoute s2 = "hit"
      · rw [if_pos hroute] at h
        cases h
        refine Or.inl ⟨rfl, ?_⟩
        by_contra hc
        rw [Bool.not_eq_true] at hc
        rw [svcRoute, hc] at hroute
        exact absurd hroute (by decide)
      · rw [if_neg hroute] at h
        rcases h3 : svc_retrieve o s2 with e | s3 <;> rw [h3] at h <;> dsimp only at h
        · cases h
        · rcases h4 : svc_generate_answer o s3 with e | s4 <;> rw [h4] at h <;>
            dsimp only at h
          · cases h
          · cases h
            refine Or.inr ⟨rfl, ?_⟩
            rw [svc_generate_answer_cache_hit o s3 s h4,
              svc_retrieve_cache_hit o s2 s3 h3]
            by_contra hc
            rw [Bool.not_eq_false] at hc
            exact hroute (by rw [svcRoute, hc]; rfl)

/-! ### Claim C1 -/

/-- Claim C1, corrected.  In the `nodes.py` pipeline, exactly one
assistant turn is appended per run — for any outcome of the refiner, the
retrieval branches, the reranker, and the generator — provided the cache
similarity search succeeds (returning entries with present responses) and
the cache write succeeds.  The claim as stated, which also requires a turn
when `check_cache` itself fails, is refuted by
`C1_check_cache_failure_aborts`: `check_cache` has no exception handling,
so a failing cache search aborts the run with no assistant message, and a
failing cache write after a successful generation appends two assistant
messages. -/
theorem C1_one_assistant_turn (o : NodesOracles) (st : AgentState)
    (hmsg : st.messages ≠ [])
    (hlk : ∀ q, ∃ res, o.cacheSearch q = Except.ok res ∧
            ∀ p ∈ res, p.1.response ≠ none)
    (hadd : ∀ k v, o.cacheAdd k v = Except.ok ()) :
    ∃ s tr a, runNodesGraph o st = Except.ok (s, tr) ∧
      s.messages = st.messages ++ [aiMessage a] := by
  obtain ⟨sq, hqc⟩ := query_construct_shape o st hmsg
  obtain ⟨res, hres, hresp⟩ := hlk sq.refined_query
  rcases check_cache_shape o { st with structured_query := some sq } sq rfl
      res hres hresp with ⟨a, hcc⟩ | hcc
  · refine ⟨{ messages := st.messages ++ [aiMessage a],
              structured_query := some sq,
              source_documents := st.source_documents, cache_hit := true,
              cacheWrites := st.cacheWrites },
            ["query_construct", "check_cache"], a, ?_, rfl⟩
    simp [runNodesGraph, hqc, hcc, route_after_cache]
  · obtain ⟨docs, hrt⟩ :=
      retrieve_shape o { st with structured_query := some sq, cache_hit := false }
        sq rfl
    obtain ⟨m, hm⟩ := exists_getLast st.messages hmsg
    obtain ⟨a, w, hgen⟩ := generate_answer_shape o
      { st with structured_query := some sq, cache_hit := false,
                source_documents := docs } sq m rfl hm hadd
    refine ⟨{ messages := st.messages ++ [aiMessage a],
              structured_query := some sq, source_documents := docs,
              cache_hit := false, cacheWrites := st.cacheWrites ++ w },
            ["query_construct", "check_cache", "retrieve", "generate_answer"],
            a, ?_, rfl⟩
    simp [runNodesGraph, hqc, hcc, hrt, hgen, route_after_cache]

/-- Witness for C1: with the baseline oracles (failing refiner, empty
cache, empty retrieval, succeeding generation and cache write), the run
appends exactly one assistant message. -/
theorem C1_one_assistant_turn_witness :
    ∃ s tr a, runNodesGraph okNodesO (initState qFix) = Except.ok (s, tr) ∧
      s.messages = (initState qFix).messages ++ [aiMessage a] := by
  apply C1_one_assistant_turn
  · simp [initState]
  · exact fun q => ⟨[], rfl, by simp⟩
  · exact fun k v => rfl

/-- Counterexample to C1 as stated.  First conjunct: when the cache
similarity search raises inside `check_cache`, the whole run aborts and no
assistant turn is appended.  Second conjunct: when the cache write raises
after a successful generation, the `except` handler of `generate_answer`
appends the apology in addition to the already-appended answer, so two
assistant turns are appended. -/
theorem C1_check_cache_failure_aborts :
    runNodesGraph cacheFailNodesO (initState qFix) = Except.error ()
    ∧ runNodesGraph addFailNodesO (initState qFix) = Except.ok
      ({ messages := [humanMessage qFix, aiMessage "Generated answer.",
                      aiMessage (nodesErrorApology qFix)],
         structured_query := some ⟨Metadata.unset, qFix⟩,
         source_documents := [], cache_hit := false, cacheWrites := [] },
       ["query_construct", "check_cache", "retrieve", "generate_answer"]) := by
  exact ⟨rfl, rfl⟩

/-! ### Claim C4 -/

/-- Claim C4, confirmed.  In both pipelines, any successful run whose
final state records a cache hit has the two-node trace: it contains
neither `retrieve` nor `generate_answer`, because the hit transition goes
straight to the terminal state and the retrieve and generate nodes never
set the `cache_hit` flag. -/
theorem C4_hit_short_circuits :
    (∀ (o : NodesOracles) (init s : AgentState) (tr : List String),
       runNodesGraph o init = Except.ok (s, tr) → s.cache_hit = true →
       "retrieve" ∉ tr ∧ "generate_answer" ∉ tr)
    ∧ (∀ (o : SvcOracles) (init s : AgentState) (tr : List String),
       runSvcGraph o init = Except.ok (s, tr) → s.cache_hit = true →
       "retrieve" ∉ tr ∧ "generate_answer" ∉ tr) := by
  constructor
  · intro o init s tr h hhit
    rcases runNodesGraph_cases o init s tr h with ⟨rfl, _⟩ | ⟨rfl, hfalse⟩
    · exact ⟨by decide, by decide⟩
    · rw [hhit] at hfalse
      cases hfalse
  · intro o init s tr h hhit
    rcases runSvcGraph_cases o init s tr h with ⟨rfl, _⟩ | ⟨rfl, hfalse⟩
    · exact ⟨by decide, by decide⟩
    · rw [hhit] at hfalse
      cases hfalse

/-- Final state of the concrete cache-hit run used as the C4 witness. -/
def hitRunState : AgentState :=
  { messages := [humanMessage qFix, aiMessage "cached answer"],
    structured_query := some ⟨Metadata.unset, qFix⟩,
    source_documents := [], cache_hit := true, cacheWrites := [] }

/-- Witness for C4: a concrete run with a cache hit, whose trace contains
neither `retrieve` nor `generate_answer`. -/
theorem C4_hit_short_circuits_witness :
    "retrieve" ∉ (["query_construct", "check_cache"] : List String)
    ∧ "generate_answer" ∉ (["query_construct", "check_cache"] : List String) :=
  C4_hit_short_circuits.1 hitNodesO (initState qFix) hitRunState
    ["query_construct", "check_cache"] (by with_unfolding_all decide) rfl

/-! ### Claim C2 -/

/-- Claim C2, corrected.  In the `nodes.py` pipeline the cache-write
policy is exactly as claimed: a generation error appends the apology with
no cache write, an empty generation appends the empty-output fallback with
no cache write, and only a non-empty successful generation appends the
answer together with exactly one cache write keyed by the refined query.
In the service-layer pipeline, however, `generate_answer` writes every
answer to the cache — including the apology substituted after a generation
error, as `C2_apology_cached` shows — so the claim fails there. -/
theorem C2_cache_write_policy :
    (∀ (o : NodesOracles) (st : AgentState) (sq : QueryConstruct) (m : Message),
       st.structured_query = some sq → st.messages.getLast? = some m →
       (o.generate (contextOf st.source_documents) m.content = Except.error () →
          generate_answer o st = Except.ok
            { st with messages :=
                st.messages ++ [aiMessage (nodesErrorApology m.content)] })
       ∧ (o.generate (contextOf st.source_documents) m.content = Except.ok "" →
          generate_answer o st = Except.ok
            { st with messages := st.messages ++ [aiMessage nodesEmptyFallback] })
       ∧ (∀ c, o.generate (contextOf st.source_documents) m.content = Except.ok c →
            c ≠ "" → o.cacheAdd sq.refined_query c = Except.ok () →
            generate_answer o st = Except.ok
              { st with messages := st.messages ++ [aiMessage c],
                        cacheWrites := st.cacheWrites ++ [(sq.refined_query, c)] }))
    ∧ (∀ (o : SvcOracles) (st : AgentState) (sq : QueryConstruct) (m : Message),
       st.structured_query = some sq → st.messages.getLast? = some m →
       (∀ v, o.cacheAdd sq.refined_query v = Except.ok ()) →
       ∃ a, svc_generate_answer o st = Except.ok
         { st with messages := st.messages ++ [aiMessage a],
                   cacheWrites := st.cacheWrites ++ [(sq.refined_query, a)] }) := by
  constructor
  · intro o st sq m hsq hm
    refine ⟨?_, ?_, ?_⟩
    · intro hg
      simp [generate_answer, hm, hsq, hg]
    · intro hg
      simp [generate_answer, hm, hsq, hg]
    · intro c hg hc hadd
      simp [generate_answer, hm, hsq, hg, hc, hadd]
  · intro o st sq m hsq hm hadd
    refine ⟨if run_phi3_inference_sync o m.content (contextOf st.source_documents) = ""
            then "I apologize, but I was unable to generate a response for this query."
            else run_phi3_inference_sync o m.content (contextOf st.source_documents), ?_⟩
    simp [svc_generate_answer, hsq, hm, hadd]

/-- Witness for C2: a successful non-empty generation in the standalone
pipeline appends the answer and writes exactly one cache entry keyed by
the refined query. -/
theorem C2_cache_write_policy_witness :
    generate_answer okNodesO stSq = Except.ok
      { stSq with messages := stSq.messages ++ [aiMessage "Generated answer."],
                  cacheWrites :=
                    stSq.cacheWrites ++ [(sqFix.refined_query, "Generated answer.")] } :=
  ((C2_cache_write_policy.1 okNodesO stSq sqFix (humanMessage "user question")
    rfl rfl).2.2) "Generated answer." rfl (by decide) rfl

/-- Counterexample to C2 as stated: in the service-layer pipeline a failed
generation produces the apology answer, and that apology is written to the
cache. -/
theorem C2_apology_cached :
    svc_generate_answer svcGenFailO stSq = Except.ok
      { messages := [humanMessage "user question",
          aiMessage "I apologize, but I encountered an error while generating a response."],
        structured_query := some sqFix, source_documents := [], cache_hit := false,
        cacheWrites := [("refined query",
          "I apologize, but I encountered an error while generating a response.")] } := rfl

/-! ### Claim C3 -/

/-- Claim C3, confirmed.  Splitting the cache store as `l1 ++ e :: l2`
with `e` the best (top-1) match — strictly nearer than every earlier
entry, at least as near as every later entry — the lookup returns the
stored response of `e` exactly when its similarity `1 - distance` reaches
the 0.90 threshold, and `none` below the threshold; on an empty store it
returns `none`. -/
theorem C3_cache_lookup_threshold (dist : String → String → Rat)
    (l1 l2 : List CacheEntry) (e : CacheEntry) (q : String)
    (h1 : ∀ x ∈ l1, dist q e.key < dist q x.key)
    (h2 : ∀ x ∈ l2, dist q e.key ≤ dist q x.key) :
    get_cached_response_sync (storeOracleSearch dist (l1 ++ e :: l2)) q =
      (if (9 : Rat)/10 ≤ 1 - dist q e.key then Except.ok e.response
       else Except.ok none)
    ∧ get_cached_response_sync (storeOracleSearch dist []) q = Except.ok none := by
  constructor
  · have hs := distanceSearchTop1_eq dist l1 e l2 q h1 h2
    by_cases hth : (9 : Rat)/10 ≤ 1 - dist q e.key
    · simp [get_cached_response_sync, storeOracleSearch, hs, hth]
    · simp [get_cached_response_sync, storeOracleSearch, hs, hth]
  · rfl

/-- Witness for C3: a two-entry store whose second entry is far closer to
the query; the lookup returns its stored answer unchanged. -/
theorem C3_cache_lookup_threshold_witness :
    get_cached_response_sync (storeOracleSearch wDist [wFar, wNear]) "any query" =
      Except.ok (some "stored answer") := by
  have hnear : wDist "any query" wNear.key = (1 : Rat)/20 := by
    simp [wDist, wNear]
  have hfar : wDist "any query" wFar.key = 1 := by
    simp [wDist, wFar]
  have h := (C3_cache_lookup_threshold wDist [wFar] [] wNear "any query"
    (by
      intro x hx
      rw [List.mem_singleton] at hx
      subst hx
      rw [hnear, hfar]
      norm_num)
    (by intro x hx; cases hx)).1
  rw [hnear] at h
  rw [if_pos (by norm_num)] at h
  exact h

/-! ### Claim C9 -/

/-- Claim C9, confirmed.  In the service layer, a top-1 cache match that
clears the 0.90 similarity threshold but stores a missing (`None`) or
empty response is treated as a miss: `check_cache` leaves the messages
unchanged, sets `cache_hit` to `false`, and the conditional edge routes to
`retrieve` (and from there the graph runs `generate_answer`). -/
theorem C9_empty_response_is_miss (o : SvcOracles) (dist : String → String → Rat)
    (l1 l2 : List CacheEntry) (e : CacheEntry) (st : AgentState)
    (sq : QueryConstruct)
    (hsq : st.structured_query = some sq)
    (hsearch : o.cacheSearch = storeOracleSearch dist (l1 ++ e :: l2))
    (h1 : ∀ x ∈ l1, dist sq.refined_query e.key < dist sq.refined_query x.key)
    (h2 : ∀ x ∈ l2, dist sq.refined_query e.key ≤ dist sq.refined_query x.key)
    (hth : (9 : Rat)/10 ≤ 1 - dist sq.refined_query e.key)
    (hresp : e.response = none ∨ e.response = some "") :
    svc_check_cache o st = Except.ok { st with cache_hit := false }
    ∧ svcRoute { st with cache_hit := false } = "miss" := by
  have hget : get_cached_response_sync o.cacheSearch sq.refined_query =
      Except.ok e.response := by
    rw [hsearch]
    have hs := distanceSearchTop1_eq dist l1 e l2 sq.refined_query h1 h2
    simp [get_cached_response_sync, storeOracleSearch, hs, hth]
  constructor
  · rcases hresp with hr | hr <;> rw [hr] at hget <;>
      simp [svc_check_cache, hsq, hget]
  · rfl

/-- Witness for C9: a store whose only entry is at distance 0 (similarity
1) but holds an empty response; the check is a miss that routes to
retrieval. -/
theorem C9_empty_response_is_miss_witness :
    svc_check_cache emptyRespSvcO stSq = Except.ok { stSq with cache_hit := false }
    ∧ svcRoute { stSq with cache_hit := false } = "miss" := by
  apply C9_empty_response_is_miss emptyRespSvcO (fun _ _ => 0) [] []
    ⟨"stored key", some ""⟩ stSq sqFix rfl rfl
  · intro x hx
    cases hx
  · intro x hx
    cases hx
  · norm_num
  · exact Or.inr rfl

/-! ### Claim C5 -/

/-- Claim C5, corrected.  The service-layer reranking step sorts the scored candidates with
the stable descending key sort and keeps the top 2: the sort is descending
(no strictly higher score after a strictly lower one), a permutation of
its input, stable (for each score value the tied candidates keep their
input order), and the truncation keeps at most 2.  The second conjunct
ties this to `svc_retrieve`.  The `nodes.py` pipeline instead sorts
`(score, Document)` tuples, which raises on tied scores; see
`C5_tie_drops_documents`. -/
theorem C5_rerank_top2_stable :
    (∀ l : List (Rat × Doc),
       (stableSortDesc l).Sorted rerankRel
       ∧ (stableSortDesc l).Perm l
       ∧ (∀ c : Rat, (stableSortDesc l).filter (fun p => decide (p.1 = c)) =
           l.filter (fun p => decide (p.1 = c)))
       ∧ ((stableSortDesc l).take 2).length ≤ 2)
    ∧ (∀ (o : SvcOracles) (st : AgentState) (sq : QueryConstruct)
         (sd kd : List Doc) (scores : List Rat),
       st.structured_query = some sq →
       o.semanticSearch sq.refined_query (buildWhereClause sq.filter) =
         Except.ok sd →
       o.keywordSearch sq.refined_query = Except.ok kd →
       deduplicate_documents (sd ++ kd) ≠ [] →
       o.rerank sq.refined_query
         ((deduplicate_documents (sd ++ kd)).map Doc.content) = Except.ok scores →
       svc_retrieve o st = Except.ok { st with
         source_documents := List.map (fun p => p.2.content)
           (List.take 2 (stableSortDesc
             (scores.zip (deduplicate_documents (sd ++ kd))))) }) := by
  constructor
  · intro l
    refine ⟨List.sorted_insertionSort rerankRel l, List.perm_insertionSort rerankRel l,
      fun c => stableSortDesc_filter c l, ?_⟩
    rw [List.length_take]
    exact min_le_left _ _
  · intro o st sq sd kd scores hsq hsem hkw hne hre
    have hh : hybrid_search_sync o sq.refined_query sq.filter =
        Except.ok (deduplicate_documents (sd ++ kd)) := by
      simp [hybrid_search_sync, hsem, hkw]
    simp [svc_retrieve, hsq, hh, hne, rerank_documents_sync, hre]

/-- Witness for C5: two documents with distinct scores (the second scores
higher) are reordered descending by the service-layer reranking. -/
theorem C5_rerank_top2_stable_witness :
    svc_retrieve scoredSvcO stSq = Except.ok
      { stSq with source_documents := ["beta content", "alpha content"] } := by
  have h := C5_rerank_top2_stable.2 scoredSvcO stSq sqFix [docA, docB] []
    [(1 : Rat)/4, (3 : Rat)/4] rfl rfl rfl (by decide) rfl
  rw [h]
  with_unfolding_all decide

/-- Counterexample to C5 as stated: on two candidates with equal scores,
`nodes.retrieve` raises a `TypeError` while sorting the `(score,
Document)` tuples, the blanket handler returns the empty document list —
rather than keeping the tied candidates in their prior order — while the
service-layer sort keeps both in input order. -/
theorem C5_tie_drops_documents :
    retrieve tieNodesO stSq = Except.ok { stSq with source_documents := [] }
    ∧ svc_retrieve tieSvcO stSq = Except.ok
        { stSq with source_documents := ["alpha content", "beta content"] } := by
  constructor
  · with_unfolding_all decide
  · with_unfolding_all decide

/-! ### Claim C6 -/

/-- Claim C6, corrected.  When reranker scoring fails on the retrieved
candidate set, the service layer substitutes the neutral uniform score 0.5
for every candidate, so the stable descending sort leaves the
de-duplicated union in retrieval order and generation receives its first
`min(2, n)` candidates: the turn completes and no candidate is reordered
or dropped before truncation.  The `nodes.py` pipeline, whose claim-cited
fallback this contradicts, drops all candidates on the same failure (see
`C6_nodes_rerank_failure_drops`), though its turn also completes. -/
theorem C6_rerank_failure_keeps_candidates (o : SvcOracles) (st : AgentState)
    (sq : QueryConstruct) (sd kd : List Doc)
    (hsq : st.structured_query = some sq)
    (hsem : o.semanticSearch sq.refined_query (buildWhereClause sq.filter) =
      Except.ok sd)
    (hkw : o.keywordSearch sq.refined_query = Except.ok kd)
    (hre : o.rerank sq.refined_query
      ((deduplicate_documents (sd ++ kd)).map Doc.content) = Except.error ()) :
    svc_retrieve o st = Except.ok { st with source_documents :=
      ((deduplicate_documents (sd ++ kd)).take 2).map Doc.content } := by
  have hh : hybrid_search_sync o sq.refined_query sq.filter =
      Except.ok (deduplicate_documents (sd ++ kd)) := by
    simp [hybrid_search_sync, hsem, hkw]
  by_cases hne : deduplicate_documents (sd ++ kd) = []
  · simp [svc_retrieve, hsq, hh, hne]
  · have key : (rerank_documents_sync o sq.refined_query
        ((deduplicate_documents (sd ++ kd)).map Doc.content)).zip
          (deduplicate_documents (sd ++ kd)) =
        (deduplicate_documents (sd ++ kd)).map fun d => ((1 : Rat)/2, d) := by
      have hscores : rerank_documents_sync o sq.refined_query
          ((deduplicate_documents (sd ++ kd)).map Doc.content) =
          List.replicate ((deduplicate_documents (sd ++ kd)).map Doc.content).length
            ((1 : Rat)/2) := by
        simp [rerank_documents_sync, hre]
      rw [hscores, List.length_map]
      exact replicate_zip _ _
    have huniform : stableSortDesc
        ((deduplicate_documents (sd ++ kd)).map fun d => ((1 : Rat)/2, d)) =
        (deduplicate_documents (sd ++ kd)).map fun d => ((1 : Rat)/2, d) := by
      refine stableSortDesc_uniform ((1 : Rat)/2) _ ?_
      intro p hp
      rw [List.mem_map] at hp
      obtain ⟨d, _, rfl⟩ := hp
      rfl
    simp only [svc_retrieve, hsq, hh]
    rw [if_neg hne, key, huniform, ← List.map_take, List.map_map]
    rfl

/-- Witness for C6: with two retrieved documents and a failing reranker,
the service-layer turn keeps both documents in retrieval order. -/
theorem C6_rerank_failure_keeps_candidates_witness :
    svc_retrieve rerankFailSvcO stSq = Except.ok
      { stSq with source_documents := ["alpha content", "beta content"] } := by
  have h := C6_rerank_failure_keeps_candidates rerankFailSvcO stSq sqFix
    [docA, docB] [] rfl rfl rfl rfl
  rw [h]
  decide

/-- Counterexample to C6 as stated: in `nodes.py` the same reranker
failure is caught by the blanket handler, which drops the retrieved
candidate and hands generation an empty context. -/
theorem C6_nodes_rerank_failure_drops :
    retrieve rerankFailNodesO stSq =
      Except.ok { stSq with source_documents := [] } := rfl

/-! ### Claim C7 -/

/-- Claim C7, corrected.  In the `nodes.py` pipeline a refiner error and a
`None` structured output both store the fallback `StructuredQuery` with a
fully unset filter and the verbatim user text, and a parsed output is
stored as returned.  In the service layer only a raised error produces the
fallback: `analyze_query_sync` passes any `Except.ok` result — including
`none` — through unchanged.  The claim as stated fails on the service
layer (a `None` output is not replaced and later faults the turn) and on
the non-emptiness invariant (an empty parsed `refined_query` is stored
verbatim); see `C7_none_output_not_fallback`. -/
theorem C7_refiner_fallback :
    (∀ (o : NodesOracles) (st : AgentState) (m : Message),
       st.messages.getLast? = some m →
       ((o.refine (conversationContext st.messages) m.content = Except.error () →
          query_construct o st = Except.ok
            { st with structured_query := some ⟨Metadata.unset, m.content⟩ })
        ∧ (o.refine (conversationContext st.messages) m.content = Except.ok none →
          query_construct o st = Except.ok
            { st with structured_query := some ⟨Metadata.unset, m.content⟩ })
        ∧ (∀ r, o.refine (conversationContext st.messages) m.content =
              Except.ok (some r) →
          query_construct o st = Except.ok { st with structured_query := some r })))
    ∧ (∀ (o : SvcOracles) (q ctx : String),
        (o.analyze ctx q = Except.error () →
          analyze_query_sync o q ctx = some ⟨Metadata.unset, q⟩)
        ∧ (∀ r, o.analyze ctx q = Except.ok r → analyze_query_sync o q ctx = r)) := by
  constructor
  · intro o st m hm
    refine ⟨?_, ?_, ?_⟩
    · intro hr
      simp [query_construct, hm, hr]
    · intro hr
      simp [query_construct, hm, hr]
    · intro r hr
      simp [query_construct, hm, hr]
  · intro o q ctx
    constructor
    · intro h
      simp [analyze_query_sync, h]
    · intro r h
      simp [analyze_query_sync, h]

/-- Witness for C7: with a raising refiner, the standalone pipeline stores
the verbatim user text with an unset filter. -/
theorem C7_refiner_fallback_witness :
    query_construct okNodesO (initState qFix) = Except.ok
      { initState qFix with structured_query := some ⟨Metadata.unset, qFix⟩ } :=
  ((C7_refiner_fallback.1 okNodesO (initState qFix) (humanMessage qFix) rfl).1) rfl

/-- Counterexample to C7 as stated.  First conjunct: the service-layer
refiner returns a `None` structured output unchanged instead of the
fallback.  Second conjunct: that `None` then faults the turn — the whole
graph run aborts.  Third conjunct: a parsed output with an empty
`refined_query` is stored as-is despite the non-empty user input. -/
theorem C7_none_output_not_fallback :
    analyze_query_sync svcNoneO qFix "ctx" = none
    ∧ runSvcGraph svcNoneO (initState qFix) = Except.error ()
    ∧ query_construct emptyRefineNodesO (initState qFix) = Except.ok
        { initState qFix with structured_query := some ⟨Metadata.unset, ""⟩ } :=
  ⟨rfl, rfl, rfl⟩

/-! ### Claim C8 -/

/-- Claim C8, confirmed.  De-duplication is idempotent, agrees with the
first-occurrence specification (removing exactly the later occurrences of
equal text content), is an order-preserving sublist of its input, yields
pairwise distinct contents, and loses no content. -/
theorem C8_dedup_idempotent_first_seen (docs : List Doc) :
    deduplicate_documents (deduplicate_documents docs) = deduplicate_documents docs
    ∧ deduplicate_documents docs = dedupSpecFirst docs
    ∧ (deduplicate_documents docs).Sublist docs
    ∧ ((deduplicate_documents docs).map Doc.content).Nodup
    ∧ ∀ c, c ∈ (deduplicate_documents docs).map Doc.content ↔
        c ∈ docs.map Doc.content := by
  refine ⟨?_, ?_, dedupAux_sublist [] docs, nodup_dedupAux [] docs, ?_⟩
  · exact dedupAux_eq_self _ (nodup_dedupAux [] docs) [] (by simp)
  · have h := dedupAux_eq_spec docs []
    simpa using h
  · intro c
    rw [deduplicate_documents, mem_dedupAux_content]
    simp

/-! ### Claim C10 -/

/-- Claim C10, confirmed.  Both `process_sync` and
`get_conversation_history_sync` raise `RuntimeError` when called before
`initialize_services` has built the workflow, before any graph invocation
or checkpoint access: the error result carries no processed turn and no
updated conversation store. -/
theorem C10_uninitialized_raises (o : SvcOracles)
    (store : List (String × AgentState)) (threadId query : String) :
    process_sync none o store threadId query =
      Except.error ProcError.notInitialized
    ∧ get_conversation_history_sync none store threadId =
      Except.error ProcError.notInitialized :=
  ⟨rfl, rfl⟩

end FIE
